import Mathlib

set_option maxRecDepth 40000

/-!
Verification of the starknet-faucet token-dispensing core.

The definitions below are a shallow embedding of the Go sources:
  * `internal/pow/pow.go`          — PoW challenge verification (`VerifyPoW`)
  * `pkg/utils/validator.go`       — address / token validation
  * `internal/cache/redis.go`      — quota store operations (Redis modelled as a
                                      pure in-memory map; per-key TTL is modelled
                                      as an explicit expiry timestamp checked at
                                      read time, and integers/floats as `Nat`/`ℚ`)
  * `internal/api/handlers.go`     — the dispatch orchestrator (`RequestTokens`,
                                      `GetChallenge`, `handleBothTokensRequest`)

Machine integers are modelled as `Nat` with explicit `% 2^32` where overflow
matters (the SHA-256 compression function).  Go `float64` amounts are modelled
as exact rationals `ℚ`; all the comparisons the claims mention are on values
where the float computation is exact, so no rounding behaviour is lost.
Time is modelled as a `Nat` unix-seconds clock passed explicitly to each
operation that calls `time.Now()` in the source.
-/

namespace Faucet

/-! ## SHA-256 (Go `crypto/sha256`), over `Nat` words reduced mod 2^32 -/

/-- 2^32, the word modulus of SHA-256. -/
def w32 : Nat := 4294967296

/-- 32-bit modular addition. -/
def add32 (a b : Nat) : Nat := (a + b) % w32

/-- Right-rotation of a 32-bit word (input assumed `< 2^32`). -/
def rotr32 (n a : Nat) : Nat := (a / 2 ^ n + a % 2 ^ n * 2 ^ (32 - n)) % w32

/-- Logical right shift of a 32-bit word. -/
def shr32 (n a : Nat) : Nat := a / 2 ^ n

/-- Three-way xor. -/
def xor3 (a b c : Nat) : Nat := Nat.xor (Nat.xor a b) c

/-- SHA-256 big sigma 0. -/
def bsig0 (a : Nat) : Nat := xor3 (rotr32 2 a) (rotr32 13 a) (rotr32 22 a)

/-- SHA-256 big sigma 1. -/
def bsig1 (a : Nat) : Nat := xor3 (rotr32 6 a) (rotr32 11 a) (rotr32 25 a)

/-- SHA-256 small sigma 0. -/
def ssig0 (a : Nat) : Nat := xor3 (rotr32 7 a) (rotr32 18 a) (shr32 3 a)

/-- SHA-256 small sigma 1. -/
def ssig1 (a : Nat) : Nat := xor3 (rotr32 17 a) (rotr32 19 a) (shr32 10 a)

/-- SHA-256 choice function: `(e ∧ f) ⊕ (¬e ∧ g)`. -/
def chf (e f g : Nat) : Nat := Nat.xor (Nat.land e f) (Nat.land (Nat.xor e (w32 - 1)) g)

/-- SHA-256 majority function. -/
def maj (a b c : Nat) : Nat :=
  Nat.xor (Nat.xor (Nat.land a b) (Nat.land a c)) (Nat.land b c)

/-- The 64 SHA-256 round constants. -/
def K256 : List Nat :=
  [1116352408, 1899447441, 3049323471, 3921009573, 961987163, 1508970993,
   2453635748, 2870763221, 3624381080, 310598401, 607225278, 1426881987,
   1925078388, 2162078206, 2614888103, 3248222580, 3835390401, 4022224774,
   264347078, 604807628, 770255983, 1249150122, 1555081692, 1996064986,
   2554220882, 2821834349, 2952996808, 3210313671, 3336571891, 3584528711,
   113926993, 338241895, 666307205, 773529912, 1294757372, 1396182291,
   1695183700, 1986661051, 2177026350, 2456956037, 2730485921, 2820302411,
   3259730800, 3345764771, 3516065817, 3600352804, 4094571909, 275423344,
   430227734, 506948616, 659060556, 883997877, 958139571, 1322822218,
   1537002063, 1747873779, 1955562222, 2024104815, 2227730452, 2361852424,
   2428436474, 2756734187, 3204031479, 3329325298]

/-- The SHA-256 initial hash state. -/
def H256 : List Nat :=
  [1779033703, 3144134277, 1013904242, 2773480762,
   1359893119, 2600822924, 528734635, 1541459225]

/-- A 64-bit length as 8 big-endian bytes. -/
def be8 (n : Nat) : List Nat :=
  [n / 2 ^ 56 % 256, n / 2 ^ 48 % 256, n / 2 ^ 40 % 256, n / 2 ^ 32 % 256,
   n / 2 ^ 24 % 256, n / 2 ^ 16 % 256, n / 2 ^ 8 % 256, n % 256]

/-- A 32-bit word as 4 big-endian bytes. -/
def be4 (n : Nat) : List Nat :=
  [n / 2 ^ 24 % 256, n / 2 ^ 16 % 256, n / 2 ^ 8 % 256, n % 256]

/-- SHA-256 padding: append `0x80`, zero bytes to 56 mod 64, and the
big-endian 64-bit bit length. -/
def padMsg (msg : List Nat) : List Nat :=
  msg ++ 128 :: List.replicate ((119 - msg.length % 64) % 64) 0 ++ be8 (8 * msg.length)

/-- Split a byte list into 64-byte blocks (fuel-based so it reduces in the
kernel; the fuel `l.length` always suffices). -/
def toBlocksFuel : Nat → List Nat → List (List Nat)
  | 0, _ => []
  | _ + 1, [] => []
  | n + 1, a :: rest => (a :: rest).take 64 :: toBlocksFuel n ((a :: rest).drop 64)

/-- Split a byte list into 64-byte blocks. -/
def toBlocks (l : List Nat) : List (List Nat) := toBlocksFuel l.length l

/-- Group 4 bytes big-endian into one 32-bit word. -/
def toWords : List Nat → List Nat
  | b0 :: b1 :: b2 :: b3 :: rest => (((b0 * 256 + b1) * 256 + b2) * 256 + b3) :: toWords rest
  | _ => []

/-- Extend the 16-word message schedule by `n` further words. -/
def extendSchedule : Nat → Array Nat → Array Nat
  | 0, w => w
  | n + 1, w =>
    let i := w.size
    let nw := add32 (add32 (w.getD (i - 16) 0) (ssig0 (w.getD (i - 15) 0)))
                    (add32 (w.getD (i - 7) 0) (ssig1 (w.getD (i - 2) 0)))
    extendSchedule n (w.push nw)

/-- One SHA-256 compression round on the working variables `(a,…,h)`. -/
def roundStep (k w : Nat)
    (s : Nat × Nat × Nat × Nat × Nat × Nat × Nat × Nat) :
    Nat × Nat × Nat × Nat × Nat × Nat × Nat × Nat :=
  let (a, b, c, d, e, f, g, h) := s
  let t1 := add32 (add32 (add32 h (bsig1 e)) (add32 (chf e f g) k)) w
  let t2 := add32 (bsig0 a) (maj a b c)
  (add32 t1 t2, a, b, c, add32 d t1, e, f, g)

/-- Run the 64 compression rounds. -/
def runRounds : List Nat → List Nat →
    Nat × Nat × Nat × Nat × Nat × Nat × Nat × Nat →
    Nat × Nat × Nat × Nat × Nat × Nat × Nat × Nat
  | k :: ks, w :: ws, s => runRounds ks ws (roundStep k w s)
  | _, _, s => s

/-- Compress one 64-byte block into the hash state. -/
def compress (h : List Nat) (block : List Nat) : List Nat :=
  match h with
  | [a0, b0, c0, d0, e0, f0, g0, h0] =>
    let ws := (extendSchedule 48 (toWords block).toArray).toList
    let (a, b, c, d, e, f, g, hh) := runRounds K256 ws (a0, b0, c0, d0, e0, f0, g0, h0)
    [add32 a0 a, add32 b0 b, add32 c0 c, add32 d0 d,
     add32 e0 e, add32 f0 f, add32 g0 g, add32 h0 hh]
  | _ => h

/-- SHA-256 of a byte list, as its 32 digest bytes. -/
def sha256 (msg : List Nat) : List Nat :=
  ((toBlocks (padMsg msg)).foldl compress H256).foldr (fun w acc => be4 w ++ acc) []

/-- UTF-8 encoding of one code point (Go strings are UTF-8 byte sequences). -/
def utf8Enc (c : Nat) : List Nat :=
  if c < 128 then [c]
  else if c < 2048 then [192 + c / 64, 128 + c % 64]
  else if c < 65536 then [224 + c / 4096, 128 + c / 64 % 64, 128 + c % 64]
  else [240 + c / 262144, 128 + c / 4096 % 64, 128 + c / 64 % 64, 128 + c % 64]

/-- The UTF-8 bytes of a string (Go `[]byte(s)`). -/
def strBytes (s : String) : List Nat :=
  s.data.foldr (fun c acc => utf8Enc c.toNat ++ acc) []

/-- Lowercase hex digit, as Go `encoding/hex` emits. -/
def hexChar (n : Nat) : Char := if n < 10 then Char.ofNat (48 + n) else Char.ofNat (87 + n)

/-- Hex encoding of a byte list (Go `hex.EncodeToString`). -/
def hexOfBytes (bs : List Nat) : List Char :=
  bs.foldr (fun b acc => hexChar (b / 16) :: hexChar (b % 16) :: acc) []

/-! ## `internal/pow/pow.go` -/

/-- The hex SHA-256 digest of `challenge || nonce` computed by `VerifyPoW`
(pow.go:74-76): `data := fmt.Sprintf("%s%d", challenge, nonce)`. -/
def hashHexOf (challenge : String) (nonce : Int) : List Char :=
  hexOfBytes (sha256 (strBytes (challenge ++ toString nonce)))

/-- `Generator.VerifyPoW` (pow.go:67-81).  `gdiff` is the generator's
configured difficulty, `difficulty` the claimed one. -/
def verifyPoW (gdiff : Nat) (challenge : String) (nonce : Int) (difficulty : Nat) : Bool :=
  if difficulty ≠ gdiff then false
  else (List.replicate difficulty '0').isPrefixOf (hashHexOf challenge nonce)

/-- Number of leading `'0'` characters of a character list. -/
def leadingZeros (l : List Char) : Nat := (l.takeWhile fun c => c == '0').length

/-- `strings.HasPrefix(s, strings.Repeat("0", d))` holds exactly when `s` has at
least `d` leading zero characters. -/
theorem replicate_zero_prefix_iff (d : Nat) (l : List Char) :
    List.replicate d '0' <+: l ↔ d ≤ leadingZeros l := by
  induction d generalizing l with
  | zero => simp
  | succ d ih =>
    cases l with
    | nil => simp [leadingZeros]
    | cons c l =>
      rw [List.replicate_succ, List.cons_prefix_cons]
      by_cases h : c = '0'
      · subst h
        simp [leadingZeros, List.takeWhile, ih, Nat.succ_le_succ_iff]
      · have hc : (c == '0') = false := by simpa using h
        simp [leadingZeros, List.takeWhile, hc]
        intro hh
        exact absurd hh.symm h

/-! ## `pkg/utils/validator.go` -/

/-- ASCII uppercase of one character (Go `strings.ToUpper` acts runewise; all
tokens involved are ASCII).  Defined charwise so it reduces in the kernel. -/
def toUpperCh (c : Char) : Char :=
  if 97 ≤ c.toNat ∧ c.toNat ≤ 122 then Char.ofNat (c.toNat - 32) else c

/-- Go `strings.ToUpper`. -/
def goToUpper (s : String) : String := String.mk (s.data.map toUpperCh)

/-- Whether a character matches `[0-9a-fA-F]`. -/
def isHexDigitCh (c : Char) : Bool :=
  (48 ≤ c.toNat && c.toNat ≤ 57) || (97 ≤ c.toNat && c.toNat ≤ 102) ||
    (65 ≤ c.toNat && c.toNat ≤ 70)

/-- `utils.ValidateStarknetAddress` (validator.go:15-37): non-empty, starts with
`0x`, and matches `^0x[0-9a-fA-F]{1,64}$`.  `true` means no error.  (The
padding block in the source computes a value it discards.) -/
def validateStarknetAddress (address : String) : Bool :=
  match address.data with
  | '0' :: 'x' :: rest => decide (1 ≤ rest.length) && decide (rest.length ≤ 64) && rest.all isHexDigitCh
  | _ => false

/-- `utils.ValidateToken` (validator.go:52-58): only `ETH` and `STRK` (case
insensitive) are accepted.  `true` means no error. -/
def validateToken (token : String) : Bool :=
  goToUpper token == "ETH" || goToUpper token == "STRK"

/-! ## `internal/cache/redis.go`

Redis is modelled as a pure in-memory store.  A key with a TTL is modelled as
an explicit expiry timestamp; redis's auto-expiry is modelled by comparing
that timestamp with `now` at read time.  Refreshing a TTL on a key whose
expiry no claim reads (the daily counter and the challenge-issuance counter)
is not tracked.  Infra errors (unreachable store) do not occur in the model. -/

/-- The faucet-relevant contents of the Redis store.

* `challenges id = some (payload, expiry)` — `challenge:<id>` with its TTL
* `dailyCount ip` — `ratelimit:ip:day:<ip>` (absent key reads as `0`)
* `cooldown ip = some e` — `cooldown:ip:<ip>` holding the RFC3339 end time `e`
* `throttle ip token = some e` — `throttle:ip:token:<ip>:<token>`, expiring at `e`
* `distHour t` / `distDay t` — `global:distributed:hour:<t>` / `day:<t>`
* `challengeCount ip` — `ratelimit:challenge:hour:<ip>` -/
structure Store where
  challenges : String → Option (String × Nat)
  dailyCount : String → Nat
  cooldown : String → Option Nat
  throttle : String → String → Option Nat
  distHour : String → ℚ
  distDay : String → ℚ
  challengeCount : String → Nat

/-- Point update of a one-key map. -/
def setFn {α : Type} (f : String → α) (k : String) (v : α) : String → α :=
  fun x => if x = k then v else f x

/-- `StoreChallenge` (redis.go:50-53): `SET challenge:<id> payload EX ttl`. -/
def storeChallenge (st : Store) (id payload : String) (expiry : Nat) : Store :=
  { st with challenges := setFn st.challenges id (some (payload, expiry)) }

/-- `GetChallenge` (redis.go:56-59); a missing or TTL-expired key is a lookup
failure (`none`). -/
def getStoredChallenge (st : Store) (id : String) (now : Nat) : Option String :=
  match st.challenges id with
  | some (p, e) => if now < e then some p else none
  | none => none

/-- `DeleteChallenge` (redis.go:62-65). -/
def deleteChallenge (st : Store) (id : String) : Store :=
  { st with challenges := setFn st.challenges id none }

/-- `CheckIPDailyLimit` (redis.go:71-95).  Returns
`(canRequest, currentCount, cooldownEnd, store)`; the store component reflects
the deletion of an already-expired cooldown key. -/
def checkIPDailyLimit (maxDaily : Nat) (st : Store) (ip : String) (now : Nat) :
    Bool × Nat × Option Nat × Store :=
  match st.cooldown ip with
  | some endT =>
    if now < endT then (false, maxDaily, some endT, st)
    else
      let st' := { st with cooldown := setFn st.cooldown ip none }
      if maxDaily ≤ st'.dailyCount ip then (false, st'.dailyCount ip, none, st')
      else (true, st'.dailyCount ip, none, st')
  | none =>
    if maxDaily ≤ st.dailyCount ip then (false, st.dailyCount ip, none, st)
    else (true, st.dailyCount ip, none, st)

/-- `IncrementIPDailyLimit` (redis.go:99-122): increment by `incrementBy`; if
the new count reaches the max, set a 24h cooldown and clear the counter. -/
def incrementIPDailyLimit (maxDaily : Nat) (st : Store) (ip : String)
    (incrementBy : Nat) (now : Nat) : Store :=
  let newCount := st.dailyCount ip + incrementBy
  if maxDaily ≤ newCount then
    { st with cooldown := setFn st.cooldown ip (some (now + 86400)),
              dailyCount := setFn st.dailyCount ip 0 }
  else
    { st with dailyCount := setFn st.dailyCount ip newCount }

/-- `CheckTokenHourlyThrottle` (redis.go:126-147): key existence (with redis
auto-expiry) decides; `nextAvailable = now + TTL`, i.e. the expiry itself. -/
def checkTokenHourlyThrottle (st : Store) (ip token : String) (now : Nat) :
    Bool × Option Nat :=
  match st.throttle ip token with
  | some e => if now < e then (false, some e) else (true, none)
  | none => (true, none)

/-- `SetTokenHourlyThrottle` (redis.go:150-153): sets the marker with a 1h TTL. -/
def setTokenHourlyThrottle (st : Store) (ip token : String) (now : Nat) : Store :=
  { st with throttle := fun i t => if i = ip ∧ t = token then some (now + 3600)
                                   else st.throttle i t }

/-- `TrackGlobalDistribution` (redis.go:189-233).  Caps of `0` disable the
corresponding window; both disabled short-circuits to success with no
tracking.  A failed check leaves both windows untouched. -/
def trackGlobalDistribution (st : Store) (tokenType : String)
    (amount maxHour maxDay : ℚ) : Bool × Store :=
  if maxHour = 0 ∧ maxDay = 0 then (true, st)
  else if 0 < maxHour ∧ maxHour < st.distHour tokenType + amount then (false, st)
  else if 0 < maxDay ∧ maxDay < st.distDay tokenType + amount then (false, st)
  else
    let st1 := if 0 < maxHour then
        { st with distHour := setFn st.distHour tokenType (st.distHour tokenType + amount) }
      else st
    let st2 := if 0 < maxDay then
        { st1 with distDay := setFn st1.distDay tokenType (st1.distDay tokenType + amount) }
      else st1
    (true, st2)

/-- `CheckChallengeRateLimit` (redis.go:260-270): `false` once the in-window
count has reached the configured max. -/
def checkChallengeRateLimit (maxCh : Nat) (st : Store) (ip : String) : Bool :=
  !(decide (maxCh ≤ st.challengeCount ip))

/-- `IncrementChallengeRateLimit` (redis.go:273-280). -/
def incrementChallengeRateLimit (st : Store) (ip : String) : Store :=
  { st with challengeCount := setFn st.challengeCount ip (st.challengeCount ip + 1) }

/-! ## `internal/api/handlers.go`

The dispatch orchestrator.  The Starknet client (`internal/starknet`, an
external chain collaborator per the spec) is modelled as an outcome oracle:
`getBalance` returns the balance already converted to token units (the
handler's `WeiToAmount(currentBalance)`), `transferTokens` either a tx hash or
an error (which also covers timeouts).  Error-response messages keep the
static part of the Go format strings; dynamically formatted numbers
(hours/minutes remaining, quota used) are elided from the message text. -/

/-- The fields of `config.Config` the orchestrator reads.  Drip amounts are the
parsed `ParseFloat` values of the configured strings. -/
structure Config where
  powDifficulty : Nat
  challengeTTL : Nat
  maxRequestsPerDayIP : Nat
  maxChallengesPerHour : Nat
  dripAmountSTRK : ℚ
  dripAmountETH : ℚ
  maxTokensPerHourSTRK : ℚ
  maxTokensPerDaySTRK : ℚ
  maxTokensPerHourETH : ℚ
  maxTokensPerDayETH : ℚ
  minBalanceProtectPct : Nat

/-- The chain collaborator: `GetBalance` (in token units) and `TransferTokens`
(by recipient address and token), each either succeeding or failing. -/
structure Chain where
  getBalance : String → Except Unit ℚ
  transferTokens : String → String → Except Unit String

/-- `models.FaucetRequest`. -/
structure FaucetRequest where
  address : String
  token : String
  challengeID : String
  nonce : Int

/-- Observable collaborator calls of one handler execution, in order. -/
inductive Event where
  | checkDaily
  | checkThrottle (token : String)
  | lookupChallenge (id : String)
  | verifyPow
  | dropChallenge (id : String)
  | trackDist (token : String)
  | balanceCheck (token : String)
  | transferCall (token : String)
  | incrDaily (n : Nat)
  | setThrottle (token : String)
deriving DecidableEq, Repr

/-- An HTTP response of the handlers: an error with its status code, a
single-token success, a combined success, or an issued challenge. -/
inductive Resp where
  | err (status : Nat) (msg : String)
  | ok (token : String) (amount : ℚ) (txHash : String)
  | okBoth (transactions : List (String × ℚ × String)) (message : String)
  | challengeOk (challengeID payload : String) (difficulty : Nat)
deriving DecidableEq, Repr

/-- Whether a response reports `success = true`. -/
def Resp.isSuccess : Resp → Bool
  | .ok _ _ _ => true
  | .okBoth _ _ => true
  | _ => false

/-- The per-token drip amount and global caps selected in handlers.go:249-262
(and 459-473): `(amount, maxHourly, maxDaily)`. -/
def tokenParams (cfg : Config) (token : String) : ℚ × ℚ × ℚ :=
  if token = "STRK" then (cfg.dripAmountSTRK, cfg.maxTokensPerHourSTRK, cfg.maxTokensPerDaySTRK)
  else (cfg.dripAmountETH, cfg.maxTokensPerHourETH, cfg.maxTokensPerDayETH)

/-- The reserve-protection comparison of handlers.go:295-300: block the
transfer when `currentBalance - amount < currentBalance * protectPct/100`. -/
def reserveBlocked (currentBalance amount : ℚ) (protectPct : Nat) : Bool :=
  currentBalance - amount < currentBalance * ((protectPct : ℚ) / 100)

/-- The single-token tail of `RequestTokens` (handlers.go:248-358): global
distribution guard, reserve protection, transfer, then — only after a tx hash
came back — the daily-quota and throttle commits. -/
def singleTokenDispatch (cfg : Config) (chain : Chain) (address token : String)
    (st : Store) (now : Nat) (ip : String) : Resp × Store × List Event :=
  let (amount, maxHourly, maxDaily) := tokenParams cfg token
  let (canDistribute, st1) := trackGlobalDistribution st token amount maxHourly maxDaily
  if !canDistribute then
    (.err 503 "Faucet has reached its distribution limit. Please try again later.",
     st1, [.trackDist token])
  else
    match chain.getBalance token with
    | .error _ =>
      (.err 500 "Failed to check faucet balance", st1, [.trackDist token, .balanceCheck token])
    | .ok currentBalance =>
      if reserveBlocked currentBalance amount cfg.minBalanceProtectPct then
        (.err 503 "Faucet balance too low", st1, [.trackDist token, .balanceCheck token])
      else
        match chain.transferTokens address token with
        | .error _ =>
          (.err 500 "Failed to send tokens. Please try again later.", st1,
           [.trackDist token, .balanceCheck token, .transferCall token])
        | .ok txHash =>
          let st2 := incrementIPDailyLimit cfg.maxRequestsPerDayIP st1 ip 1 now
          let st3 := setTokenHourlyThrottle st2 ip token now
          (.ok token amount txHash, st3,
           [.trackDist token, .balanceCheck token, .transferCall token,
            .incrDaily 1, .setThrottle token])

/-- One iteration of the loop body of `handleBothTokensRequest`
(handlers.go:458-527): `some tx` when the token's guard checks and transfer all
pass, `none` when the leg fails (which breaks the loop). -/
def bothLeg (cfg : Config) (chain : Chain) (address token : String) (st : Store) :
    Option (String × ℚ × String) × Store × List Event :=
  let (amount, maxHourly, maxDaily) := tokenParams cfg token
  let (canDistribute, st1) := trackGlobalDistribution st token amount maxHourly maxDaily
  if !canDistribute then (none, st1, [.trackDist token])
  else
    match chain.getBalance token with
    | .error _ => (none, st1, [.trackDist token, .balanceCheck token])
    | .ok currentBalance =>
      if reserveBlocked currentBalance amount cfg.minBalanceProtectPct then
        (none, st1, [.trackDist token, .balanceCheck token])
      else
        match chain.transferTokens address token with
        | .error _ => (none, st1, [.trackDist token, .balanceCheck token, .transferCall token])
        | .ok txHash =>
          (some (token, amount, txHash), st1,
           [.trackDist token, .balanceCheck token, .transferCall token])

/-- `handleBothTokensRequest` (handlers.go:452-559): STRK leg then ETH leg; if
at least one transferred, increment the daily counter by 2 and throttle the
transferred tokens, reporting success with the partial list; otherwise 500. -/
def handleBothTokensRequest (cfg : Config) (chain : Chain) (address : String)
    (st : Store) (now : Nat) (ip : String) : Resp × Store × List Event :=
  match bothLeg cfg chain address "STRK" st with
  | (none, st1, ev1) =>
    (.err 500 "Failed to send STRK tokens. Please try again later.", st1, ev1)
  | (some tx1, st1, ev1) =>
    match bothLeg cfg chain address "ETH" st1 with
    | (some tx2, st2, ev2) =>
      let st3 := incrementIPDailyLimit cfg.maxRequestsPerDayIP st2 ip 2 now
      let st4 := setTokenHourlyThrottle (setTokenHourlyThrottle st3 ip tx1.1 now) ip tx2.1 now
      (.okBoth [tx1, tx2] "Both tokens sent successfully", st4,
       ev1 ++ ev2 ++ [.incrDaily 2, .setThrottle tx1.1, .setThrottle tx2.1])
    | (none, st2, ev2) =>
      let st3 := incrementIPDailyLimit cfg.maxRequestsPerDayIP st2 ip 2 now
      let st4 := setTokenHourlyThrottle st3 ip tx1.1 now
      (.okBoth [tx1] "Sent 1 token(s) successfully, but ETH failed", st4,
       ev1 ++ ev2 ++ [.incrDaily 2, .setThrottle tx1.1])

/-- `RequestTokens` (handlers.go:97-359): structural validation, the ordered
rate-limit gates, challenge lookup and PoW verification, challenge deletion,
then the per-token dispatch.  The PoW generator's difficulty equals
`cfg.powDifficulty` (main.go:72), which is also what the handler passes as the
claimed difficulty (handlers.go:227). -/
def requestTokens (cfg : Config) (chain : Chain) (req : FaucetRequest)
    (st : Store) (now : Nat) (ip : String) : Resp × Store × List Event :=
  if !validateStarknetAddress req.address then (.err 400 "Invalid address", st, [])
  else
    let token := goToUpper req.token
    if !validateToken token then
      (.err 400 "invalid token: must be ETH or STRK", st, [])
    else
      let (canRequest, currentCount, cooldownEnd, st1) :=
        checkIPDailyLimit cfg.maxRequestsPerDayIP st ip now
      if !canRequest && cooldownEnd.isSome then
        (.err 429 "Daily limit reached. In 24-hour cooldown", st1, [.checkDaily])
      else
        let requestCost := if token = "BOTH" then 2 else 1
        if !canRequest || decide (cfg.maxRequestsPerDayIP < currentCount + requestCost) then
          (.err 429 "IP daily limit reached", st1, [.checkDaily])
        else
          if token = "BOTH" then
            let (canSTRK, _) := checkTokenHourlyThrottle st1 ip "STRK" now
            if !canSTRK then
              (.err 429 "STRK hourly throttle active", st1,
               [.checkDaily, .checkThrottle "STRK"])
            else
              let (canETH, _) := checkTokenHourlyThrottle st1 ip "ETH" now
              if !canETH then
                (.err 429 "ETH hourly throttle active", st1,
                 [.checkDaily, .checkThrottle "STRK", .checkThrottle "ETH"])
              else
                match getStoredChallenge st1 req.challengeID now with
                | none =>
                  (.err 400 "Invalid or expired challenge", st1,
                   [.checkDaily, .checkThrottle "STRK", .checkThrottle "ETH",
                    .lookupChallenge req.challengeID])
                | some storedChallenge =>
                  if !verifyPoW cfg.powDifficulty storedChallenge req.nonce cfg.powDifficulty then
                    (.err 400 "Invalid proof of work solution", st1,
                     [.checkDaily, .checkThrottle "STRK", .checkThrottle "ETH",
                      .lookupChallenge req.challengeID, .verifyPow])
                  else
                    let st2 := deleteChallenge st1 req.challengeID
                    let (resp, st3, ev) := handleBothTokensRequest cfg chain req.address st2 now ip
                    (resp, st3,
                     [.checkDaily, .checkThrottle "STRK", .checkThrottle "ETH",
                      .lookupChallenge req.challengeID, .verifyPow,
                      .dropChallenge req.challengeID] ++ ev)
          else
            let (canToken, _) := checkTokenHourlyThrottle st1 ip token now
            if !canToken then
              (.err 429 (token ++ " hourly throttle active"), st1,
               [.checkDaily, .checkThrottle token])
            else
              match getStoredChallenge st1 req.challengeID now with
              | none =>
                (.err 400 "Invalid or expired challenge", st1,
                 [.checkDaily, .checkThrottle token, .lookupChallenge req.challengeID])
              | some storedChallenge =>
                if !verifyPoW cfg.powDifficulty storedChallenge req.nonce cfg.powDifficulty then
                  (.err 400 "Invalid proof of work solution", st1,
                   [.checkDaily, .checkThrottle token, .lookupChallenge req.challengeID,
                    .verifyPow])
                else
                  let st2 := deleteChallenge st1 req.challengeID
                  let (resp, st3, ev) := singleTokenDispatch cfg chain req.address token st2 now ip
                  (resp, st3,
                   [.checkDaily, .checkThrottle token, .lookupChallenge req.challengeID,
                    .verifyPow, .dropChallenge req.challengeID] ++ ev)

/-- `GetChallenge` (handlers.go:47-94): issuance rate limit, then generate
(`newId`/`newPayload` stand for the random values), store with TTL, and
increment the issuance counter. -/
def getChallengeHandler (cfg : Config) (st : Store) (ip : String)
    (newId newPayload : String) (now : Nat) : Resp × Store :=
  if !checkChallengeRateLimit cfg.maxChallengesPerHour st ip then
    (.err 429 "Too many challenge requests. Please try again later.", st)
  else
    let st1 := storeChallenge st newId newPayload (now + cfg.challengeTTL)
    let st2 := incrementChallengeRateLimit st1 ip
    (.challengeOk newId newPayload cfg.powDifficulty, st2)

/-! ## Concrete fixtures for witnesses and counterexamples -/

/-- A configuration with PoW difficulty 0 (a difficulty-0 proof is vacuous,
which lets the fixtures exercise the full pipeline), daily max 5, drip
10 STRK / 1 ETH, global caps disabled, 5% reserve protection. -/
def cfgBase : Config := ⟨0, 300, 5, 8, 10, 1, 0, 0, 0, 0, 5⟩

/-- `cfgBase` with a STRK drip amount of 97 (Scenario D). -/
def cfg97 : Config := { cfgBase with dripAmountSTRK := 97 }

/-- `cfgBase` with a STRK drip amount of 90 (Scenario D). -/
def cfg90 : Config := { cfgBase with dripAmountSTRK := 90 }

/-- A chain whose balances are all 100 and whose transfers succeed. -/
def chainOk : Chain := ⟨fun _ => .ok 100, fun _ _ => .ok "0xtx"⟩

/-- A chain whose balances are all 100 and whose transfers all fail. -/
def chainDown : Chain := ⟨fun _ => .ok 100, fun _ _ => .error ()⟩

/-- A chain where the STRK transfer succeeds and the ETH transfer fails. -/
def chainHalf : Chain :=
  ⟨fun _ => .ok 100, fun _ t => if t = "STRK" then .ok "0xs" else .error ()⟩

/-- A store holding one unexpired challenge `c1` with payload `payload`, and
otherwise empty. -/
def storeBase : Store :=
  ⟨fun i => if i = "c1" then some ("payload", 1000) else none,
   fun _ => 0, fun _ => none, fun _ _ => none, fun _ => 0, fun _ => 0, fun _ => 0⟩

/-- `storeBase` with the requesting IP's daily counter at 4. -/
def storeAt4 : Store := { storeBase with dailyCount := fun _ => 4 }

/-- `storeBase` with an active cooldown until `t = 99` for every IP, and the
daily counter at 3. -/
def storeCooling : Store :=
  { storeBase with cooldown := fun _ => some 99, dailyCount := fun _ => 3 }

/-- A store whose challenge-issuance counter is at 7 for every IP. -/
def storeCh7 : Store := { storeBase with challengeCount := fun _ => 7 }

/-- A store whose challenge-issuance counter is at 8 for every IP. -/
def storeCh8 : Store := { storeBase with challengeCount := fun _ => 8 }

/-- The STRK request used by the fixtures, solving challenge `c1`. -/
def reqSTRK : FaucetRequest := ⟨"0x123", "STRK", "c1", 0⟩

/-- A request for token `BOTH` (as the CLI's `--both` flag sends). -/
def reqBOTH : FaucetRequest := ⟨"0x123", "BOTH", "c1", 0⟩

/-! ## Claims -/

/-- C1: `VerifyPoW` returns true iff the claimed difficulty equals the
generator's configured difficulty and the hex SHA-256 digest of
`payload || nonce` has at least that many leading zero characters; a
mismatched claimed difficulty always yields false. -/
theorem verifyPoW_spec (g : Nat) (c : String) (n : Int) (d : Nat) :
    (verifyPoW g c n d = true ↔ d = g ∧ d ≤ leadingZeros (hashHexOf c n)) ∧
    (d ≠ g → verifyPoW g c n d = false) := by
  refine ⟨?_, fun h => by simp [verifyPoW, h]⟩
  by_cases h : d = g
  · subst h
    simp [verifyPoW, replicate_zero_prefix_iff]
  · simp [verifyPoW, h]

/-- Witness for C1: claimed difficulty 3 against configured difficulty 2 is
rejected, even though `sha256("test123278")` starts with two zero hex chars. -/
theorem verifyPoW_spec_witness :
    (3 : Nat) ≠ 2 ∧ verifyPoW 2 "test123" 278 3 = false :=
  ⟨by decide, (verifyPoW_spec 2 "test123" 278 3).2 (by decide)⟩

/-- C2 (code bug): `ValidateToken` accepts only `ETH` and `STRK`, so a
dispatch request with token `BOTH` is rejected by structural validation with
400 before any gate runs — the handler's entire dual-token path
(`requestCost = 2`, dual throttle checks, `handleBothTokensRequest`) is
unreachable, contradicting `models.FaucetRequest`'s declared
`oneof=ETH STRK BOTH`, SECURITY.md's "Only allow: STRK, ETH, BOTH", and the
CLI's `--both` flag. -/
theorem validateToken_rejects_BOTH :
    validateToken "BOTH" = false ∧
    (requestTokens cfgBase chainOk reqBOTH storeBase 10 "ip").1 =
      .err 400 "invalid token: must be ETH or STRK" ∧
    (requestTokens cfgBase chainOk reqBOTH storeBase 10 "ip").2.2 = [] := by
  refine ⟨by decide, by decide, by decide⟩

/-- C4: incrementing the daily counter to the configured max or beyond sets a
cooldown of `now + 24h` and clears the counter; while a cooldown is set and
unexpired, `CheckIPDailyLimit` returns not-allowed with that timestamp,
regardless of the counter value, and leaves the store unchanged. -/
theorem daily_quota_cooldown_spec (maxDaily : Nat) (st : Store) (ip : String)
    (n now : Nat) :
    (maxDaily ≤ st.dailyCount ip + n →
      (incrementIPDailyLimit maxDaily st ip n now).cooldown ip = some (now + 86400) ∧
      (incrementIPDailyLimit maxDaily st ip n now).dailyCount ip = 0) ∧
    (st.dailyCount ip + n < maxDaily →
      (incrementIPDailyLimit maxDaily st ip n now).dailyCount ip = st.dailyCount ip + n ∧
      (incrementIPDailyLimit maxDaily st ip n now).cooldown ip = st.cooldown ip) ∧
    (∀ e, st.cooldown ip = some e → now < e →
      checkIPDailyLimit maxDaily st ip now = (false, maxDaily, some e, st)) := by
  refine ⟨fun h => ?_, fun h => ?_, fun e he hlt => ?_⟩
  · simp [incrementIPDailyLimit, h, setFn]
  · have h' : ¬ maxDaily ≤ st.dailyCount ip + n := by omega
    simp [incrementIPDailyLimit, h', setFn]
  · simp [checkIPDailyLimit, he, hlt]

/-- Witness for C4: at daily max 5, incrementing a counter of 4 by 1 enters
cooldown `7 + 86400` and clears the counter; with an unexpired cooldown at
`t = 99` the check refuses regardless of the counter (here 3). -/
theorem daily_quota_cooldown_spec_witness :
    (5 ≤ storeAt4.dailyCount "ip" + 1 ∧
      (incrementIPDailyLimit 5 storeAt4 "ip" 1 7).cooldown "ip" = some (7 + 86400) ∧
      (incrementIPDailyLimit 5 storeAt4 "ip" 1 7).dailyCount "ip" = 0) ∧
    (storeCooling.cooldown "ip" = some 99 ∧ 7 < 99 ∧
      checkIPDailyLimit 5 storeCooling "ip" 7 = (false, 5, some 99, storeCooling)) :=
  ⟨⟨by decide, (daily_quota_cooldown_spec 5 storeAt4 "ip" 1 7).1 (by decide)⟩,
   ⟨rfl, by decide,
    (daily_quota_cooldown_spec 5 storeCooling "ip" 1 7).2.2 99 rfl (by decide)⟩⟩

/-- C5: `TrackGlobalDistribution` succeeds without recording when both caps
are 0 (0 = unlimited); otherwise it succeeds iff every enabled window admits
the amount, adds the amount to exactly the enabled windows on success, and
records nothing on failure. -/
theorem trackGlobalDistribution_spec (st : Store) (tok : String)
    (amount maxHour maxDay : ℚ) :
    (maxHour = 0 ∧ maxDay = 0 →
      trackGlobalDistribution st tok amount maxHour maxDay = (true, st)) ∧
    (¬(maxHour = 0 ∧ maxDay = 0) →
      ((trackGlobalDistribution st tok amount maxHour maxDay).1 = true ↔
        (0 < maxHour → st.distHour tok + amount ≤ maxHour) ∧
        (0 < maxDay → st.distDay tok + amount ≤ maxDay)) ∧
      ((trackGlobalDistribution st tok amount maxHour maxDay).1 = true →
        (trackGlobalDistribution st tok amount maxHour maxDay).2.distHour tok =
          (if 0 < maxHour then st.distHour tok + amount else st.distHour tok) ∧
        (trackGlobalDistribution st tok amount maxHour maxDay).2.distDay tok =
          (if 0 < maxDay then st.distDay tok + amount else st.distDay tok)) ∧
      ((trackGlobalDistribution st tok amount maxHour maxDay).1 = false →
        trackGlobalDistribution st tok amount maxHour maxDay = (false, st))) := by
  constructor
  · intro h
    simp [trackGlobalDistribution, h]
  · intro h
    by_cases h1 : 0 < maxHour ∧ maxHour < st.distHour tok + amount
    · have e : trackGlobalDistribution st tok amount maxHour maxDay = (false, st) := by
        simp [trackGlobalDistribution, h, h1]
      refine ⟨?_, ?_, fun _ => e⟩
      · rw [e]
        exact ⟨fun hf => by simp at hf,
               fun hc => absurd (hc.1 h1.1) (not_le.mpr h1.2)⟩
      · rw [e]
        intro hf
        simp at hf
    · by_cases h2 : 0 < maxDay ∧ maxDay < st.distDay tok + amount
      · have e : trackGlobalDistribution st tok amount maxHour maxDay = (false, st) := by
          simp [trackGlobalDistribution, h, h1, h2]
        refine ⟨?_, ?_, fun _ => e⟩
        · rw [e]
          exact ⟨fun hf => by simp at hf,
                 fun hc => absurd (hc.2 h2.1) (not_le.mpr h2.2)⟩
        · rw [e]
          intro hf
          simp at hf
      · have eq1 : (trackGlobalDistribution st tok amount maxHour maxDay).1 = true := by
          simp [trackGlobalDistribution, h, h1, h2]
        refine ⟨?_, fun _ => ?_, fun hf => ?_⟩
        · exact ⟨fun _ => ⟨fun hH => not_lt.mp (not_and.mp h1 hH),
                           fun hD => not_lt.mp (not_and.mp h2 hD)⟩,
                 fun _ => eq1⟩
        · constructor <;>
            · simp only [trackGlobalDistribution, if_neg h, if_neg h1, if_neg h2]
              by_cases hH : 0 < maxHour <;> by_cases hD : 0 < maxDay <;>
                simp [hH, hD, setFn]
        · rw [eq1] at hf
          exact Bool.noConfusion hf

/-- Witness for C5: with hourly cap 5 / daily cap 0 (disabled) and empty
windows, an amount of 4 is admitted and recorded hourly only; an amount of 6
is refused and records nothing. -/
theorem trackGlobalDistribution_spec_witness :
    (¬((5 : ℚ) = 0 ∧ (0 : ℚ) = 0) ∧
      ((trackGlobalDistribution storeBase "STRK" 4 5 0).1 = true ↔
        ((0 : ℚ) < 5 → storeBase.distHour "STRK" + 4 ≤ 5) ∧
        ((0 : ℚ) < 0 → storeBase.distDay "STRK" + 4 ≤ 0))) ∧
    ((trackGlobalDistribution storeBase "STRK" 6 5 0).1 = false →
      trackGlobalDistribution storeBase "STRK" 6 5 0 = (false, storeBase)) :=
  ⟨⟨by simp, ((trackGlobalDistribution_spec storeBase "STRK" 4 5 0).2 (by simp)).1⟩,
   ((trackGlobalDistribution_spec storeBase "STRK" 6 5 0).2 (by simp)).2.2⟩

/-- C6: the reserve-protection check blocks a dispatch iff
`currentBalance - amount < currentBalance * protectPct/100`; concretely, with
5% protection and balance 100, a drip of 97 is rejected with 503 and a drip of
90 goes through. -/
theorem reserve_protection_spec :
    (∀ (bal amount : ℚ) (pct : Nat),
        reserveBlocked bal amount pct = true ↔ bal - amount < bal * ((pct : ℚ) / 100)) ∧
    (∀ (cfg : Config) (chain : Chain) (addr tok : String) (st st1 : Store)
        (now : Nat) (ip : String) (bal : ℚ),
        trackGlobalDistribution st tok (tokenParams cfg tok).1
            (tokenParams cfg tok).2.1 (tokenParams cfg tok).2.2 = (true, st1) →
        chain.getBalance tok = .ok bal →
        ((singleTokenDispatch cfg chain addr tok st now ip).1 =
            .err 503 "Faucet balance too low" ↔
          bal - (tokenParams cfg tok).1 <
            bal * ((cfg.minBalanceProtectPct : ℚ) / 100))) ∧
    (requestTokens cfg97 chainOk reqSTRK storeBase 10 "ip").1 =
      .err 503 "Faucet balance too low" ∧
    (requestTokens cfg90 chainOk reqSTRK storeBase 10 "ip").1 =
      .ok "STRK" 90 "0xtx" := by
  refine ⟨fun bal amount pct => by simp [reserveBlocked], ?_,
    by with_unfolding_all decide, by with_unfolding_all decide⟩
  intro cfg chain addr tok st st1 now ip bal htrack hbal
  simp only [singleTokenDispatch, htrack, hbal, reserveBlocked]
  by_cases hb : bal - (tokenParams cfg tok).1 < bal * ((cfg.minBalanceProtectPct : ℚ) / 100)
  · simp [hb]
  · simp only [decide_eq_true_eq, if_neg hb]
    cases htr : chain.transferTokens addr tok with
    | error e => simp [htr, hb]
    | ok tx => simp [htr, hb]

/-- Witness for C6: the dispatch-level iff instantiated at balance 100, drip
97, 5% protection (`cfg97`, `chainOk`), where the guard fires. -/
theorem reserve_protection_spec_witness :
    trackGlobalDistribution storeBase "STRK" (tokenParams cfg97 "STRK").1
        (tokenParams cfg97 "STRK").2.1 (tokenParams cfg97 "STRK").2.2 =
      (true, storeBase) ∧
    chainOk.getBalance "STRK" = .ok 100 ∧
    ((singleTokenDispatch cfg97 chainOk "0x123" "STRK" storeBase 10 "ip").1 =
        .err 503 "Faucet balance too low" ↔
      (100 : ℚ) - (tokenParams cfg97 "STRK").1 <
        100 * ((cfg97.minBalanceProtectPct : ℚ) / 100)) :=
  ⟨rfl, rfl,
   reserve_protection_spec.2.1 cfg97 chainOk "0x123" "STRK" storeBase storeBase
     10 "ip" 100 rfl rfl⟩

end Faucet

namespace Faucet

/-! ## Evaluation lemmas: one equation per branch of `RequestTokens` -/

theorem requestTokens_addr_invalid (cfg : Config) (chain : Chain) (req : FaucetRequest)
    (st : Store) (now : Nat) (ip : String)
    (h : validateStarknetAddress req.address = false) :
    requestTokens cfg chain req st now ip = (.err 400 "Invalid address", st, []) := by
  simp [requestTokens, h]

theorem requestTokens_token_invalid (cfg : Config) (chain : Chain) (req : FaucetRequest)
    (st : Store) (now : Nat) (ip : String)
    (ha : validateStarknetAddress req.address = true)
    (h : validateToken (goToUpper req.token) = false) :
    requestTokens cfg chain req st now ip =
      (.err 400 "invalid token: must be ETH or STRK", st, []) := by
  simp [requestTokens, ha, h]

theorem requestTokens_cooldown (cfg : Config) (chain : Chain) (req : FaucetRequest)
    (st : Store) (now : Nat) (ip : String) (cnt : Nat) (cd : Option Nat) (st1 : Store)
    (ha : validateStarknetAddress req.address = true)
    (hv : validateToken (goToUpper req.token) = true)
    (hchk : checkIPDailyLimit cfg.maxRequestsPerDayIP st ip now = (false, cnt, cd, st1))
    (hcd : cd.isSome = true) :
    requestTokens cfg chain req st now ip =
      (.err 429 "Daily limit reached. In 24-hour cooldown", st1, [.checkDaily]) := by
  simp [requestTokens, ha, hv, hchk, hcd]

theorem requestTokens_daily_limit (cfg : Config) (chain : Chain) (req : FaucetRequest)
    (st : Store) (now : Nat) (ip : String) (cr : Bool) (cnt : Nat) (cd : Option Nat)
    (st1 : Store)
    (ha : validateStarknetAddress req.address = true)
    (hv : validateToken (goToUpper req.token) = true)
    (hchk : checkIPDailyLimit cfg.maxRequestsPerDayIP st ip now = (cr, cnt, cd, st1))
    (hno : (!cr && cd.isSome) = false)
    (hq : (!cr || decide (cfg.maxRequestsPerDayIP <
            cnt + (if goToUpper req.token = "BOTH" then 2 else 1))) = true) :
    requestTokens cfg chain req st now ip =
      (.err 429 "IP daily limit reached", st1, [.checkDaily]) := by
  simp only [requestTokens, ha, hv, hchk, hno, hq]
  simp

theorem requestTokens_throttled (cfg : Config) (chain : Chain) (req : FaucetRequest)
    (st : Store) (now : Nat) (ip : String) (cnt : Nat) (cd : Option Nat) (st1 : Store)
    (next : Option Nat)
    (ha : validateStarknetAddress req.address = true)
    (hv : validateToken (goToUpper req.token) = true)
    (hnB : goToUpper req.token ≠ "BOTH")
    (hchk : checkIPDailyLimit cfg.maxRequestsPerDayIP st ip now = (true, cnt, cd, st1))
    (hq : decide (cfg.maxRequestsPerDayIP <
            cnt + (if goToUpper req.token = "BOTH" then 2 else 1)) = false)
    (hth : checkTokenHourlyThrottle st1 ip (goToUpper req.token) now = (false, next)) :
    requestTokens cfg chain req st now ip =
      (.err 429 (goToUpper req.token ++ " hourly throttle active"), st1,
       [.checkDaily, .checkThrottle (goToUpper req.token)]) := by
  have hq2 : ¬(cfg.maxRequestsPerDayIP < cnt + 1) := by simpa [hnB] using hq
  simp [requestTokens, ha, hv, hchk, hq2, hnB, hth]

theorem requestTokens_no_challenge (cfg : Config) (chain : Chain) (req : FaucetRequest)
    (st : Store) (now : Nat) (ip : String) (cnt : Nat) (cd : Option Nat) (st1 : Store)
    (next : Option Nat)
    (ha : validateStarknetAddress req.address = true)
    (hv : validateToken (goToUpper req.token) = true)
    (hnB : goToUpper req.token ≠ "BOTH")
    (hchk : checkIPDailyLimit cfg.maxRequestsPerDayIP st ip now = (true, cnt, cd, st1))
    (hq : decide (cfg.maxRequestsPerDayIP <
            cnt + (if goToUpper req.token = "BOTH" then 2 else 1)) = false)
    (hth : checkTokenHourlyThrottle st1 ip (goToUpper req.token) now = (true, next))
    (hlk : getStoredChallenge st1 req.challengeID now = none) :
    requestTokens cfg chain req st now ip =
      (.err 400 "Invalid or expired challenge", st1,
       [.checkDaily, .checkThrottle (goToUpper req.token),
        .lookupChallenge req.challengeID]) := by
  have hq2 : ¬(cfg.maxRequestsPerDayIP < cnt + 1) := by simpa [hnB] using hq
  simp [requestTokens, ha, hv, hchk, hq2, hnB, hth, hlk]

theorem requestTokens_bad_pow (cfg : Config) (chain : Chain) (req : FaucetRequest)
    (st : Store) (now : Nat) (ip : String) (cnt : Nat) (cd : Option Nat) (st1 : Store)
    (next : Option Nat) (payload : String)
    (ha : validateStarknetAddress req.address = true)
    (hv : validateToken (goToUpper req.token) = true)
    (hnB : goToUpper req.token ≠ "BOTH")
    (hchk : checkIPDailyLimit cfg.maxRequestsPerDayIP st ip now = (true, cnt, cd, st1))
    (hq : decide (cfg.maxRequestsPerDayIP <
            cnt + (if goToUpper req.token = "BOTH" then 2 else 1)) = false)
    (hth : checkTokenHourlyThrottle st1 ip (goToUpper req.token) now = (true, next))
    (hlk : getStoredChallenge st1 req.challengeID now = some payload)
    (hpw : verifyPoW cfg.powDifficulty payload req.nonce cfg.powDifficulty = false) :
    requestTokens cfg chain req st now ip =
      (.err 400 "Invalid proof of work solution", st1,
       [.checkDaily, .checkThrottle (goToUpper req.token),
        .lookupChallenge req.challengeID, .verifyPow]) := by
  have hq2 : ¬(cfg.maxRequestsPerDayIP < cnt + 1) := by simpa [hnB] using hq
  simp [requestTokens, ha, hv, hchk, hq2, hnB, hth, hlk, hpw]

theorem requestTokens_dispatch (cfg : Config) (chain : Chain) (req : FaucetRequest)
    (st : Store) (now : Nat) (ip : String) (cnt : Nat) (cd : Option Nat) (st1 : Store)
    (next : Option Nat) (payload : String)
    (ha : validateStarknetAddress req.address = true)
    (hv : validateToken (goToUpper req.token) = true)
    (hnB : goToUpper req.token ≠ "BOTH")
    (hchk : checkIPDailyLimit cfg.maxRequestsPerDayIP st ip now = (true, cnt, cd, st1))
    (hq : decide (cfg.maxRequestsPerDayIP <
            cnt + (if goToUpper req.token = "BOTH" then 2 else 1)) = false)
    (hth : checkTokenHourlyThrottle st1 ip (goToUpper req.token) now = (true, next))
    (hlk : getStoredChallenge st1 req.challengeID now = some payload)
    (hpw : verifyPoW cfg.powDifficulty payload req.nonce cfg.powDifficulty = true) :
    requestTokens cfg chain req st now ip =
      (let r := singleTokenDispatch cfg chain req.address (goToUpper req.token)
                  (deleteChallenge st1 req.challengeID) now ip
       (r.1, r.2.1,
        [.checkDaily, .checkThrottle (goToUpper req.token),
         .lookupChallenge req.challengeID, .verifyPow,
         .dropChallenge req.challengeID] ++ r.2.2)) := by
  have hq2 : ¬(cfg.maxRequestsPerDayIP < cnt + 1) := by simpa [hnB] using hq
  simp [requestTokens, ha, hv, hchk, hq2, hnB, hth, hlk, hpw]

end Faucet

namespace Faucet

/-! ## Evaluation lemmas for the single-token dispatch tail -/

theorem singleTokenDispatch_track_fail (cfg : Config) (chain : Chain)
    (addr tok : String) (st : Store) (now : Nat) (ip : String) (st1 : Store)
    (htrk : trackGlobalDistribution st tok (tokenParams cfg tok).1
              (tokenParams cfg tok).2.1 (tokenParams cfg tok).2.2 = (false, st1)) :
    singleTokenDispatch cfg chain addr tok st now ip =
      (.err 503 "Faucet has reached its distribution limit. Please try again later.",
       st1, [.trackDist tok]) := by
  rcases htp : tokenParams cfg tok with ⟨amt, mh, md⟩
  rw [htp] at htrk
  simp only [singleTokenDispatch, htp]
  simp at htrk
  simp [htrk]

theorem singleTokenDispatch_balance_err (cfg : Config) (chain : Chain)
    (addr tok : String) (st : Store) (now : Nat) (ip : String) (st1 : Store)
    (htrk : trackGlobalDistribution st tok (tokenParams cfg tok).1
              (tokenParams cfg tok).2.1 (tokenParams cfg tok).2.2 = (true, st1))
    (hbal : chain.getBalance tok = .error ()) :
    singleTokenDispatch cfg chain addr tok st now ip =
      (.err 500 "Failed to check faucet balance", st1,
       [.trackDist tok, .balanceCheck tok]) := by
  rcases htp : tokenParams cfg tok with ⟨amt, mh, md⟩
  rw [htp] at htrk
  simp only [singleTokenDispatch, htp]
  simp at htrk
  simp [htrk, hbal]

theorem singleTokenDispatch_reserve_fail (cfg : Config) (chain : Chain)
    (addr tok : String) (st : Store) (now : Nat) (ip : String) (st1 : Store) (bal : ℚ)
    (htrk : trackGlobalDistribution st tok (tokenParams cfg tok).1
              (tokenParams cfg tok).2.1 (tokenParams cfg tok).2.2 = (true, st1))
    (hbal : chain.getBalance tok = .ok bal)
    (hrb : reserveBlocked bal (tokenParams cfg tok).1 cfg.minBalanceProtectPct = true) :
    singleTokenDispatch cfg chain addr tok st now ip =
      (.err 503 "Faucet balance too low", st1,
       [.trackDist tok, .balanceCheck tok]) := by
  rcases htp : tokenParams cfg tok with ⟨amt, mh, md⟩
  rw [htp] at htrk hrb
  simp only [singleTokenDispatch, htp]
  simp at htrk hrb
  simp [htrk, hbal, hrb]

theorem singleTokenDispatch_transfer_fail (cfg : Config) (chain : Chain)
    (addr tok : String) (st : Store) (now : Nat) (ip : String) (st1 : Store) (bal : ℚ)
    (htrk : trackGlobalDistribution st tok (tokenParams cfg tok).1
              (tokenParams cfg tok).2.1 (tokenParams cfg tok).2.2 = (true, st1))
    (hbal : chain.getBalance tok = .ok bal)
    (hrb : reserveBlocked bal (tokenParams cfg tok).1 cfg.minBalanceProtectPct = false)
    (htr : chain.transferTokens addr tok = .error ()) :
    singleTokenDispatch cfg chain addr tok st now ip =
      (.err 500 "Failed to send tokens. Please try again later.", st1,
       [.trackDist tok, .balanceCheck tok, .transferCall tok]) := by
  rcases htp : tokenParams cfg tok with ⟨amt, mh, md⟩
  rw [htp] at htrk hrb
  simp only [singleTokenDispatch, htp]
  simp at htrk
  simp [htrk, hbal, hrb, htr]

theorem singleTokenDispatch_transfer_ok (cfg : Config) (chain : Chain)
    (addr tok : String) (st : Store) (now : Nat) (ip : String) (st1 : Store) (bal : ℚ)
    (tx : String)
    (htrk : trackGlobalDistribution st tok (tokenParams cfg tok).1
              (tokenParams cfg tok).2.1 (tokenParams cfg tok).2.2 = (true, st1))
    (hbal : chain.getBalance tok = .ok bal)
    (hrb : reserveBlocked bal (tokenParams cfg tok).1 cfg.minBalanceProtectPct = false)
    (htr : chain.transferTokens addr tok = .ok tx) :
    singleTokenDispatch cfg chain addr tok st now ip =
      (.ok tok (tokenParams cfg tok).1 tx,
       setTokenHourlyThrottle
         (incrementIPDailyLimit cfg.maxRequestsPerDayIP st1 ip 1 now) ip tok now,
       [.trackDist tok, .balanceCheck tok, .transferCall tok,
        .incrDaily 1, .setThrottle tok]) := by
  rcases htp : tokenParams cfg tok with ⟨amt, mh, md⟩
  rw [htp] at htrk hrb
  simp only [singleTokenDispatch, htp]
  simp at htrk
  simp [htrk, hbal, hrb, htr, htp]

/-! ## Field-preservation lemmas for the store operations -/

theorem checkIPDailyLimit_fields (maxDaily : Nat) (st : Store) (ip : String) (now : Nat) :
    (checkIPDailyLimit maxDaily st ip now).2.2.2.dailyCount = st.dailyCount ∧
    (checkIPDailyLimit maxDaily st ip now).2.2.2.throttle = st.throttle ∧
    (checkIPDailyLimit maxDaily st ip now).2.2.2.challenges = st.challenges ∧
    (checkIPDailyLimit maxDaily st ip now).2.2.2.distHour = st.distHour ∧
    (checkIPDailyLimit maxDaily st ip now).2.2.2.distDay = st.distDay := by
  simp only [checkIPDailyLimit]
  repeat' split
  all_goals exact ⟨rfl, rfl, rfl, rfl, rfl⟩

theorem trackGlobalDistribution_fields (st : Store) (tok : String) (a mh md : ℚ) :
    (trackGlobalDistribution st tok a mh md).2.dailyCount = st.dailyCount ∧
    (trackGlobalDistribution st tok a mh md).2.throttle = st.throttle ∧
    (trackGlobalDistribution st tok a mh md).2.challenges = st.challenges ∧
    (trackGlobalDistribution st tok a mh md).2.cooldown = st.cooldown := by
  simp only [trackGlobalDistribution]
  repeat' split
  all_goals exact ⟨rfl, rfl, rfl, rfl⟩

end Faucet

namespace Faucet

/-- C3: if the transfer collaborator call for the requested token fails (or
times out), the handler neither logs a daily-quota increment nor a throttle
set, and the final store's daily counter and throttle maps are unchanged:
`IncrementIPDailyLimit`/`SetTokenHourlyThrottle` run only after
`TransferTokens` returned a hash. -/
theorem no_commit_on_transfer_failure (cfg : Config) (chain : Chain)
    (req : FaucetRequest) (st : Store) (now : Nat) (ip : String)
    (htr : chain.transferTokens req.address (goToUpper req.token) = .error ()) :
    (∀ n, Event.incrDaily n ∉ (requestTokens cfg chain req st now ip).2.2) ∧
    (∀ t, Event.setThrottle t ∉ (requestTokens cfg chain req st now ip).2.2) ∧
    (requestTokens cfg chain req st now ip).2.1.dailyCount = st.dailyCount ∧
    (requestTokens cfg chain req st now ip).2.1.throttle = st.throttle := by
  cases ha : validateStarknetAddress req.address with
  | false =>
    rw [requestTokens_addr_invalid cfg chain req st now ip ha]
    simp
  | true =>
  cases hv : validateToken (goToUpper req.token) with
  | false =>
    rw [requestTokens_token_invalid cfg chain req st now ip ha hv]
    simp
  | true =>
  have hnB : goToUpper req.token ≠ "BOTH" := by
    intro h
    rw [h] at hv
    exact absurd hv (by decide)
  rcases hchk : checkIPDailyLimit cfg.maxRequestsPerDayIP st ip now with ⟨cr, cnt, cd, st1⟩
  have hfl := checkIPDailyLimit_fields cfg.maxRequestsPerDayIP st ip now
  rw [hchk] at hfl
  simp only at hfl
  obtain ⟨hd1, ht1, hc1, -, -⟩ := hfl
  cases cr with
  | false =>
    cases cd with
    | some e =>
      rw [requestTokens_cooldown cfg chain req st now ip cnt (some e) st1 ha hv hchk rfl]
      simp [hd1, ht1]
    | none =>
      rw [requestTokens_daily_limit cfg chain req st now ip false cnt none st1 ha hv hchk
        (by simp) (by simp)]
      simp [hd1, ht1]
  | true =>
  by_cases hq : cfg.maxRequestsPerDayIP < cnt + 1
  · rw [requestTokens_daily_limit cfg chain req st now ip true cnt cd st1 ha hv hchk
      (by simp) (by simp [hnB, hq])]
    simp [hd1, ht1]
  · have hq2 : decide (cfg.maxRequestsPerDayIP <
        cnt + (if goToUpper req.token = "BOTH" then 2 else 1)) = false := by
      simp [hnB, hq]
    rcases hth : checkTokenHourlyThrottle st1 ip (goToUpper req.token) now with ⟨ct, next⟩
    cases ct with
    | false =>
      rw [requestTokens_throttled cfg chain req st now ip cnt cd st1 next ha hv hnB hchk
        hq2 hth]
      simp [hd1, ht1]
    | true =>
    cases hlk : getStoredChallenge st1 req.challengeID now with
    | none =>
      rw [requestTokens_no_challenge cfg chain req st now ip cnt cd st1 next ha hv hnB
        hchk hq2 hth hlk]
      simp [hd1, ht1]
    | some payload =>
    cases hpw : verifyPoW cfg.powDifficulty payload req.nonce cfg.powDifficulty with
    | false =>
      rw [requestTokens_bad_pow cfg chain req st now ip cnt cd st1 next payload ha hv hnB
        hchk hq2 hth hlk hpw]
      simp [hd1, ht1]
    | true =>
    rw [requestTokens_dispatch cfg chain req st now ip cnt cd st1 next payload ha hv hnB
      hchk hq2 hth hlk hpw]
    rcases htp : tokenParams cfg (goToUpper req.token) with ⟨amt, mh, md⟩
    rcases htrk : trackGlobalDistribution (deleteChallenge st1 req.challengeID)
        (goToUpper req.token) amt mh md with ⟨canD, st3⟩
    have hfl3 := trackGlobalDistribution_fields (deleteChallenge st1 req.challengeID)
      (goToUpper req.token) amt mh md
    rw [htrk] at hfl3
    simp only at hfl3
    obtain ⟨hd3, ht3, -, -⟩ := hfl3
    have hd3' : st3.dailyCount = st.dailyCount := by
      rw [hd3]
      simpa [deleteChallenge] using hd1
    have ht3' : st3.throttle = st.throttle := by
      rw [ht3]
      simpa [deleteChallenge] using ht1
    cases canD with
    | false =>
      rw [singleTokenDispatch_track_fail cfg chain req.address (goToUpper req.token)
        (deleteChallenge st1 req.challengeID) now ip st3 (by rw [htp]; exact htrk)]
      simp [hd3', ht3']
    | true =>
    cases hbal : chain.getBalance (goToUpper req.token) with
    | error e =>
      rw [singleTokenDispatch_balance_err cfg chain req.address (goToUpper req.token)
        (deleteChallenge st1 req.challengeID) now ip st3 (by rw [htp]; exact htrk) hbal]
      simp [hd3', ht3']
    | ok bal =>
    cases hrb : reserveBlocked bal amt cfg.minBalanceProtectPct with
    | true =>
      rw [singleTokenDispatch_reserve_fail cfg chain req.address (goToUpper req.token)
        (deleteChallenge st1 req.challengeID) now ip st3 bal (by rw [htp]; exact htrk)
        hbal (by rw [htp]; exact hrb)]
      simp [hd3', ht3']
    | false =>
      rw [singleTokenDispatch_transfer_fail cfg chain req.address (goToUpper req.token)
        (deleteChallenge st1 req.challengeID) now ip st3 bal (by rw [htp]; exact htrk)
        hbal (by rw [htp]; exact hrb) htr]
      simp [hd3', ht3']

end Faucet

namespace Faucet

/-- Witness for C3: with every transfer failing (`chainDown`), a fully valid
STRK dispatch reaches the transfer, gets a 500, and commits nothing. -/
theorem no_commit_on_transfer_failure_witness :
    chainDown.transferTokens reqSTRK.address (goToUpper reqSTRK.token) = .error () ∧
    ((∀ n, Event.incrDaily n ∉
        (requestTokens cfgBase chainDown reqSTRK storeBase 10 "ip").2.2) ∧
     (∀ t, Event.setThrottle t ∉
        (requestTokens cfgBase chainDown reqSTRK storeBase 10 "ip").2.2) ∧
     (requestTokens cfgBase chainDown reqSTRK storeBase 10 "ip").2.1.dailyCount =
       storeBase.dailyCount ∧
     (requestTokens cfgBase chainDown reqSTRK storeBase 10 "ip").2.1.throttle =
       storeBase.throttle) :=
  ⟨rfl, no_commit_on_transfer_failure cfgBase chainDown reqSTRK storeBase 10 "ip" rfl⟩

end Faucet

namespace Faucet

/-- A `bothLeg` iteration never touches the quota/throttle/challenge state:
its store component only carries the distribution-window update. -/
theorem bothLeg_fields (cfg : Config) (chain : Chain) (addr tok : String) (st : Store) :
    (bothLeg cfg chain addr tok st).2.1.throttle = st.throttle ∧
    (bothLeg cfg chain addr tok st).2.1.dailyCount = st.dailyCount ∧
    (bothLeg cfg chain addr tok st).2.1.cooldown = st.cooldown ∧
    (bothLeg cfg chain addr tok st).2.1.challenges = st.challenges := by
  rcases htp : tokenParams cfg tok with ⟨amt, mh, md⟩
  rcases htrk : trackGlobalDistribution st tok amt mh md with ⟨canD, stD⟩
  have h := trackGlobalDistribution_fields st tok amt mh md
  rw [htrk] at h
  simp only at h
  simp only [bothLeg, htp, htrk]
  repeat' split
  all_goals simp_all

/-- A `bothLeg` iteration logs no commit events (no daily-quota increment, no
throttle set). -/
theorem bothLeg_events (cfg : Config) (chain : Chain) (addr tok : String) (st : Store) :
    (∀ n, Event.incrDaily n ∉ (bothLeg cfg chain addr tok st).2.2) ∧
    (∀ t, Event.setThrottle t ∉ (bothLeg cfg chain addr tok st).2.2) := by
  rcases htp : tokenParams cfg tok with ⟨amt, mh, md⟩
  rcases htrk : trackGlobalDistribution st tok amt mh md with ⟨canD, stD⟩
  constructor <;>
    · intro x
      simp only [bothLeg, htp, htrk]
      repeat' split
      all_goals simp

/-- `IncrementIPDailyLimit` never touches the throttle map. -/
theorem incrementIPDailyLimit_throttle (m : Nat) (s : Store) (i : String)
    (k n2 : Nat) : (incrementIPDailyLimit m s i k n2).throttle = s.throttle := by
  simp only [incrementIPDailyLimit]
  split <;> rfl

/-- C7 (amended): in a combined request where the STRK leg transfers and the
ETH leg fails (guard rejection or transfer error), the response is success
with the single STRK transaction, the ETH throttle is untouched — but the
daily counter is committed by the full BOTH cost of 2, not by the 1 unit the
claim states. -/
theorem both_partial_success_spec (cfg : Config) (chain : Chain) (addr : String)
    (st : Store) (now : Nat) (ip : String) (amt : ℚ) (tx : String)
    (st1 st2 : Store) (ev1 ev2 : List Event)
    (h1 : bothLeg cfg chain addr "STRK" st = (some ("STRK", amt, tx), st1, ev1))
    (h2 : bothLeg cfg chain addr "ETH" st1 = (none, st2, ev2)) :
    (handleBothTokensRequest cfg chain addr st now ip).1 =
      .okBoth [("STRK", amt, tx)] "Sent 1 token(s) successfully, but ETH failed" ∧
    (handleBothTokensRequest cfg chain addr st now ip).1.isSuccess = true ∧
    Event.incrDaily 2 ∈ (handleBothTokensRequest cfg chain addr st now ip).2.2 ∧
    (∀ n, n ≠ 2 → Event.incrDaily n ∉
      (handleBothTokensRequest cfg chain addr st now ip).2.2) ∧
    Event.setThrottle "STRK" ∈ (handleBothTokensRequest cfg chain addr st now ip).2.2 ∧
    Event.setThrottle "ETH" ∉ (handleBothTokensRequest cfg chain addr st now ip).2.2 ∧
    (handleBothTokensRequest cfg chain addr st now ip).2.1.throttle ip "ETH" =
      st.throttle ip "ETH" := by
  have he1 := bothLeg_events cfg chain addr "STRK" st
  have he2 := bothLeg_events cfg chain addr "ETH" st1
  rw [h1] at he1
  rw [h2] at he2
  simp only at he1 he2
  have hf1 := bothLeg_fields cfg chain addr "STRK" st
  have hf2 := bothLeg_fields cfg chain addr "ETH" st1
  rw [h1] at hf1
  rw [h2] at hf2
  simp only at hf1 hf2
  simp only [handleBothTokensRequest, h1, h2]
  refine ⟨trivial, rfl, by simp, ?_, by simp, ?_, ?_⟩
  · intro n hn
    simp only [List.mem_append, List.mem_cons, List.not_mem_nil, or_false]
    push_neg
    exact ⟨⟨he1.1 n, he2.1 n⟩, by simp [hn], by simp⟩
  · simp only [List.mem_append, List.mem_cons, List.not_mem_nil, or_false]
    push_neg
    exact ⟨⟨he1.2 "ETH", he2.2 "ETH"⟩, by simp, by simp⟩
  · simp [setTokenHourlyThrottle, incrementIPDailyLimit_throttle, hf2.1, hf1.1]

/-- Counterexample for C7: concretely (STRK transfer succeeds, ETH transfer
fails) the daily quota is committed with cost 2, not the 1 the claim states. -/
theorem both_partial_quota_two_cex :
    (handleBothTokensRequest cfgBase chainHalf "0x123" storeBase 10 "ip").1 =
      .okBoth [("STRK", 10, "0xs")] "Sent 1 token(s) successfully, but ETH failed" ∧
    Event.incrDaily 2 ∈
      (handleBothTokensRequest cfgBase chainHalf "0x123" storeBase 10 "ip").2.2 ∧
    Event.incrDaily 1 ∉
      (handleBothTokensRequest cfgBase chainHalf "0x123" storeBase 10 "ip").2.2 ∧
    (handleBothTokensRequest cfgBase chainHalf "0x123" storeBase 10 "ip").2.1.dailyCount
      "ip" = 2 := by
  refine ⟨by with_unfolding_all decide, by with_unfolding_all decide,
    by with_unfolding_all decide, by with_unfolding_all decide⟩

/-- Witness for C7 (amended): the concrete partial-failure run instantiating
`both_partial_success_spec`. -/
theorem both_partial_success_spec_witness :
    bothLeg cfgBase chainHalf "0x123" "STRK" storeBase =
      (some ("STRK", 10, "0xs"), storeBase, 
       [.trackDist "STRK", .balanceCheck "STRK", .transferCall "STRK"]) ∧
    ((handleBothTokensRequest cfgBase chainHalf "0x123" storeBase 10 "ip").1 =
      .okBoth [("STRK", 10, "0xs")] "Sent 1 token(s) successfully, but ETH failed" ∧
     (handleBothTokensRequest cfgBase chainHalf "0x123" storeBase 10 "ip").1.isSuccess =
       true ∧
     Event.incrDaily 2 ∈
       (handleBothTokensRequest cfgBase chainHalf "0x123" storeBase 10 "ip").2.2 ∧
     (∀ n, n ≠ 2 → Event.incrDaily n ∉
       (handleBothTokensRequest cfgBase chainHalf "0x123" storeBase 10 "ip").2.2) ∧
     Event.setThrottle "STRK" ∈
       (handleBothTokensRequest cfgBase chainHalf "0x123" storeBase 10 "ip").2.2 ∧
     Event.setThrottle "ETH" ∉
       (handleBothTokensRequest cfgBase chainHalf "0x123" storeBase 10 "ip").2.2 ∧
     (handleBothTokensRequest cfgBase chainHalf "0x123" storeBase 10
         "ip").2.1.throttle "ip" "ETH" = storeBase.throttle "ip" "ETH") :=
  ⟨by with_unfolding_all rfl,
   both_partial_success_spec cfgBase chainHalf "0x123" storeBase 10 "ip" 10 "0xs"
     storeBase storeBase
     [.trackDist "STRK", .balanceCheck "STRK", .transferCall "STRK"]
     [.trackDist "ETH", .balanceCheck "ETH", .transferCall "ETH"]
     (by with_unfolding_all rfl) (by with_unfolding_all rfl)⟩

end Faucet

namespace Faucet

/-- The kind of pipeline gate an event belongs to. -/
inductive GKind where
  | daily
  | throttleG
  | lookupG
  | powG
  | guardG
  | reserveG
  | transferG
deriving DecidableEq, Repr

/-- The gate check an event represents, if any (commit and bookkeeping events
carry no gate kind). -/
def gateKindOf : Event → Option GKind
  | .checkDaily => some .daily
  | .checkThrottle _ => some .throttleG
  | .lookupChallenge _ => some .lookupG
  | .verifyPow => some .powG
  | .trackDist _ => some .guardG
  | .balanceCheck _ => some .reserveG
  | .transferCall _ => some .transferG
  | _ => none

/-- The sequence of gate checks performed in one handler execution. -/
def gateKindsOf (evs : List Event) : List GKind := evs.filterMap gateKindOf

/-- The fixed gate order of the dispatch pipeline (§4.2 of the spec). -/
def canonicalGates : List GKind :=
  [.daily, .throttleG, .lookupG, .powG, .guardG, .reserveG, .transferG]

/-- Every execution of `RequestTokens` produces one of the nine literal traces
of the single-token pipeline (the dual-token branches are unreachable because
`ValidateToken` rejects `BOTH`). -/
theorem requestTokens_trace_cases (cfg : Config) (chain : Chain)
    (req : FaucetRequest) (st : Store) (now : Nat) (ip : String) :
    (requestTokens cfg chain req st now ip).2.2 = [] ∨
    (requestTokens cfg chain req st now ip).2.2 = [.checkDaily] ∨
    (requestTokens cfg chain req st now ip).2.2 =
      [.checkDaily, .checkThrottle (goToUpper req.token)] ∨
    (requestTokens cfg chain req st now ip).2.2 =
      [.checkDaily, .checkThrottle (goToUpper req.token),
       .lookupChallenge req.challengeID] ∨
    (requestTokens cfg chain req st now ip).2.2 =
      [.checkDaily, .checkThrottle (goToUpper req.token),
       .lookupChallenge req.challengeID, .verifyPow] ∨
    (requestTokens cfg chain req st now ip).2.2 =
      [.checkDaily, .checkThrottle (goToUpper req.token),
       .lookupChallenge req.challengeID, .verifyPow,
       .dropChallenge req.challengeID, .trackDist (goToUpper req.token)] ∨
    (requestTokens cfg chain req st now ip).2.2 =
      [.checkDaily, .checkThrottle (goToUpper req.token),
       .lookupChallenge req.challengeID, .verifyPow,
       .dropChallenge req.challengeID, .trackDist (goToUpper req.token),
       .balanceCheck (goToUpper req.token)] ∨
    (requestTokens cfg chain req st now ip).2.2 =
      [.checkDaily, .checkThrottle (goToUpper req.token),
       .lookupChallenge req.challengeID, .verifyPow,
       .dropChallenge req.challengeID, .trackDist (goToUpper req.token),
       .balanceCheck (goToUpper req.token), .transferCall (goToUpper req.token)] ∨
    (requestTokens cfg chain req st now ip).2.2 =
      [.checkDaily, .checkThrottle (goToUpper req.token),
       .lookupChallenge req.challengeID, .verifyPow,
       .dropChallenge req.challengeID, .trackDist (goToUpper req.token),
       .balanceCheck (goToUpper req.token), .transferCall (goToUpper req.token),
       .incrDaily 1, .setThrottle (goToUpper req.token)] := by
  cases ha : validateStarknetAddress req.address with
  | false =>
    rw [requestTokens_addr_invalid cfg chain req st now ip ha]
    simp
  | true =>
  cases hv : validateToken (goToUpper req.token) with
  | false =>
    rw [requestTokens_token_invalid cfg chain req st now ip ha hv]
    simp
  | true =>
  have hnB : goToUpper req.token ≠ "BOTH" := by
    intro h
    rw [h] at hv
    exact absurd hv (by decide)
  rcases hchk : checkIPDailyLimit cfg.maxRequestsPerDayIP st ip now with ⟨cr, cnt, cd, st1⟩
  cases cr with
  | false =>
    cases cd with
    | some e =>
      rw [requestTokens_cooldown cfg chain req st now ip cnt (some e) st1 ha hv hchk rfl]
      simp
    | none =>
      rw [requestTokens_daily_limit cfg chain req st now ip false cnt none st1 ha hv hchk
        (by simp) (by simp)]
      simp
  | true =>
  by_cases hq : cfg.maxRequestsPerDayIP < cnt + 1
  · rw [requestTokens_daily_limit cfg chain req st now ip true cnt cd st1 ha hv hchk
      (by simp) (by simp [hnB, hq])]
    simp
  · have hq2 : decide (cfg.maxRequestsPerDayIP <
        cnt + (if goToUpper req.token = "BOTH" then 2 else 1)) = false := by
      simp [hnB, hq]
    rcases hth : checkTokenHourlyThrottle st1 ip (goToUpper req.token) now with ⟨ct, next⟩
    cases ct with
    | false =>
      rw [requestTokens_throttled cfg chain req st now ip cnt cd st1 next ha hv hnB hchk
        hq2 hth]
      simp
    | true =>
    cases hlk : getStoredChallenge st1 req.challengeID now with
    | none =>
      rw [requestTokens_no_challenge cfg chain req st now ip cnt cd st1 next ha hv hnB
        hchk hq2 hth hlk]
      simp
    | some payload =>
    cases hpw : verifyPoW cfg.powDifficulty payload req.nonce cfg.powDifficulty with
    | false =>
      rw [requestTokens_bad_pow cfg chain req st now ip cnt cd st1 next payload ha hv hnB
        hchk hq2 hth hlk hpw]
      simp
    | true =>
    rw [requestTokens_dispatch cfg chain req st now ip cnt cd st1 next payload ha hv hnB
      hchk hq2 hth hlk hpw]
    rcases htp : tokenParams cfg (goToUpper req.token) with ⟨amt, mh, md⟩
    rcases htrk : trackGlobalDistribution (deleteChallenge st1 req.challengeID)
        (goToUpper req.token) amt mh md with ⟨canD, st3⟩
    cases canD with
    | false =>
      rw [singleTokenDispatch_track_fail cfg chain req.address (goToUpper req.token)
        (deleteChallenge st1 req.challengeID) now ip st3 (by rw [htp]; exact htrk)]
      simp
    | true =>
    cases hbal : chain.getBalance (goToUpper req.token) with
    | error e =>
      rw [singleTokenDispatch_balance_err cfg chain req.address (goToUpper req.token)
        (deleteChallenge st1 req.challengeID) now ip st3 (by rw [htp]; exact htrk) hbal]
      simp
    | ok bal =>
    cases hrb : reserveBlocked bal amt cfg.minBalanceProtectPct with
    | true =>
      rw [singleTokenDispatch_reserve_fail cfg chain req.address (goToUpper req.token)
        (deleteChallenge st1 req.challengeID) now ip st3 bal (by rw [htp]; exact htrk)
        hbal (by rw [htp]; exact hrb)]
      simp
    | false =>
    cases htr : chain.transferTokens req.address (goToUpper req.token) with
    | error e =>
      rw [singleTokenDispatch_transfer_fail cfg chain req.address (goToUpper req.token)
        (deleteChallenge st1 req.challengeID) now ip st3 bal (by rw [htp]; exact htrk)
        hbal (by rw [htp]; exact hrb) htr]
      simp
    | ok tx =>
      rw [singleTokenDispatch_transfer_ok cfg chain req.address (goToUpper req.token)
        (deleteChallenge st1 req.challengeID) now ip st3 bal tx (by rw [htp]; exact htrk)
        hbal (by rw [htp]; exact hrb) htr]
      simp

end Faucet

namespace Faucet

/-- C8: the gate checks of every dispatch execution appear in the fixed order
daily-limit, token-throttle, challenge lookup, PoW verification,
distribution guard, reserve protection, transfer — the observed check
sequence is always a prefix of that canonical order — and whenever a gate
fails, the handler returns with exactly the checks up to that gate: no
downstream check runs. -/
theorem gate_ordering_spec (cfg : Config) (chain : Chain) (req : FaucetRequest)
    (st : Store) (now : Nat) (ip : String) :
    ((gateKindsOf (requestTokens cfg chain req st now ip).2.2).isPrefixOf
        canonicalGates = true) ∧
    (∀ cr cnt cd st1,
      validateStarknetAddress req.address = true →
      validateToken (goToUpper req.token) = true →
      checkIPDailyLimit cfg.maxRequestsPerDayIP st ip now = (cr, cnt, cd, st1) →
      ((cr = false ∨ cfg.maxRequestsPerDayIP < cnt + 1 →
        (requestTokens cfg chain req st now ip).2.2 = [.checkDaily]) ∧
       (∀ next, cr = true → ¬(cfg.maxRequestsPerDayIP < cnt + 1) →
        checkTokenHourlyThrottle st1 ip (goToUpper req.token) now = (false, next) →
        (requestTokens cfg chain req st now ip).2.2 =
          [.checkDaily, .checkThrottle (goToUpper req.token)]) ∧
       (∀ next, cr = true → ¬(cfg.maxRequestsPerDayIP < cnt + 1) →
        checkTokenHourlyThrottle st1 ip (goToUpper req.token) now = (true, next) →
        getStoredChallenge st1 req.challengeID now = none →
        (requestTokens cfg chain req st now ip).2.2 =
          [.checkDaily, .checkThrottle (goToUpper req.token),
           .lookupChallenge req.challengeID]) ∧
       (∀ next payload, cr = true → ¬(cfg.maxRequestsPerDayIP < cnt + 1) →
        checkTokenHourlyThrottle st1 ip (goToUpper req.token) now = (true, next) →
        getStoredChallenge st1 req.challengeID now = some payload →
        verifyPoW cfg.powDifficulty payload req.nonce cfg.powDifficulty = false →
        (requestTokens cfg chain req st now ip).2.2 =
          [.checkDaily, .checkThrottle (goToUpper req.token),
           .lookupChallenge req.challengeID, .verifyPow]) ∧
       (∀ next payload st3, cr = true → ¬(cfg.maxRequestsPerDayIP < cnt + 1) →
        checkTokenHourlyThrottle st1 ip (goToUpper req.token) now = (true, next) →
        getStoredChallenge st1 req.challengeID now = some payload →
        verifyPoW cfg.powDifficulty payload req.nonce cfg.powDifficulty = true →
        trackGlobalDistribution (deleteChallenge st1 req.challengeID)
          (goToUpper req.token) (tokenParams cfg (goToUpper req.token)).1
          (tokenParams cfg (goToUpper req.token)).2.1
          (tokenParams cfg (goToUpper req.token)).2.2 = (false, st3) →
        (requestTokens cfg chain req st now ip).2.2 =
          [.checkDaily, .checkThrottle (goToUpper req.token),
           .lookupChallenge req.challengeID, .verifyPow,
           .dropChallenge req.challengeID, .trackDist (goToUpper req.token)]) ∧
       (∀ next payload st3 bal, cr = true → ¬(cfg.maxRequestsPerDayIP < cnt + 1) →
        checkTokenHourlyThrottle st1 ip (goToUpper req.token) now = (true, next) →
        getStoredChallenge st1 req.challengeID now = some payload →
        verifyPoW cfg.powDifficulty payload req.nonce cfg.powDifficulty = true →
        trackGlobalDistribution (deleteChallenge st1 req.challengeID)
          (goToUpper req.token) (tokenParams cfg (goToUpper req.token)).1
          (tokenParams cfg (goToUpper req.token)).2.1
          (tokenParams cfg (goToUpper req.token)).2.2 = (true, st3) →
        chain.getBalance (goToUpper req.token) = .ok bal →
        reserveBlocked bal (tokenParams cfg (goToUpper req.token)).1
          cfg.minBalanceProtectPct = true →
        (requestTokens cfg chain req st now ip).2.2 =
          [.checkDaily, .checkThrottle (goToUpper req.token),
           .lookupChallenge req.challengeID, .verifyPow,
           .dropChallenge req.challengeID, .trackDist (goToUpper req.token),
           .balanceCheck (goToUpper req.token)]))) := by
  constructor
  · rcases requestTokens_trace_cases cfg chain req st now ip with
      h | h | h | h | h | h | h | h | h <;>
      rw [h] <;>
      simp [gateKindsOf, gateKindOf, canonicalGates, List.isPrefixOf]
  · intro cr cnt cd st1 ha hv hchk
    have hnB : goToUpper req.token ≠ "BOTH" := by
      intro h
      rw [h] at hv
      exact absurd hv (by decide)
    refine ⟨?_, ?_, ?_, ?_, ?_, ?_⟩
    · intro hd
      cases cr with
      | false =>
        cases cd with
        | some e =>
          rw [requestTokens_cooldown cfg chain req st now ip cnt (some e) st1 ha hv
            hchk rfl]
        | none =>
          rw [requestTokens_daily_limit cfg chain req st now ip false cnt none st1 ha hv
            hchk (by simp) (by simp)]
      | true =>
        rcases hd with h | h
        · exact absurd h (by simp)
        · rw [requestTokens_daily_limit cfg chain req st now ip true cnt cd st1 ha hv
            hchk (by simp) (by simp [hnB, h])]
    · intro next hcr hq hth
      subst hcr
      rw [requestTokens_throttled cfg chain req st now ip cnt cd st1 next ha hv hnB hchk
        (by simp [hnB, hq]) hth]
    · intro next hcr hq hth hlk
      subst hcr
      rw [requestTokens_no_challenge cfg chain req st now ip cnt cd st1 next ha hv hnB
        hchk (by simp [hnB, hq]) hth hlk]
    · intro next payload hcr hq hth hlk hpw
      subst hcr
      rw [requestTokens_bad_pow cfg chain req st now ip cnt cd st1 next payload ha hv hnB
        hchk (by simp [hnB, hq]) hth hlk hpw]
    · intro next payload st3 hcr hq hth hlk hpw htrk
      subst hcr
      rw [requestTokens_dispatch cfg chain req st now ip cnt cd st1 next payload ha hv hnB
        hchk (by simp [hnB, hq]) hth hlk hpw]
      rw [singleTokenDispatch_track_fail cfg chain req.address (goToUpper req.token)
        (deleteChallenge st1 req.challengeID) now ip st3 htrk]
      rfl
    · intro next payload st3 bal hcr hq hth hlk hpw htrk hbal hrb
      subst hcr
      rw [requestTokens_dispatch cfg chain req st now ip cnt cd st1 next payload ha hv hnB
        hchk (by simp [hnB, hq]) hth hlk hpw]
      rw [singleTokenDispatch_reserve_fail cfg chain req.address (goToUpper req.token)
        (deleteChallenge st1 req.challengeID) now ip st3 bal htrk hbal hrb]
      rfl

end Faucet

namespace Faucet

/-- Witness for C8: a concrete run (`cfg97`, balance 100, 5% protection) in
which every gate up to reserve protection passes and the reserve gate fails —
the observed trace is exactly the first six pipeline checks and no transfer
happens. -/
theorem gate_ordering_spec_witness :
    checkIPDailyLimit cfg97.maxRequestsPerDayIP storeBase "ip" 10 =
      (true, 0, none, storeBase) ∧
    reserveBlocked 100 (tokenParams cfg97 "STRK").1 cfg97.minBalanceProtectPct = true ∧
    (requestTokens cfg97 chainOk reqSTRK storeBase 10 "ip").2.2 =
      [.checkDaily, .checkThrottle "STRK", .lookupChallenge "c1", .verifyPow,
       .dropChallenge "c1", .trackDist "STRK", .balanceCheck "STRK"] :=
  ⟨rfl, by with_unfolding_all decide,
   ((gate_ordering_spec cfg97 chainOk reqSTRK storeBase 10 "ip").2 true 0 none storeBase
       rfl rfl rfl).2.2.2.2.2 none "payload" (deleteChallenge storeBase "c1") 100
     rfl (by decide) rfl rfl rfl rfl rfl (by with_unfolding_all decide)⟩

end Faucet

namespace Faucet

/-- `IncrementIPDailyLimit` never touches the challenge map. -/
theorem incrementIPDailyLimit_challenges (m : Nat) (s : Store) (i : String)
    (k n2 : Nat) : (incrementIPDailyLimit m s i k n2).challenges = s.challenges := by
  simp only [incrementIPDailyLimit]
  split <;> rfl

/-- C9 (amended): a successful dispatch deletes the stored challenge record,
and a submission whose challenge id has no live record can never succeed —
when it reaches the challenge lookup it is rejected as invalid/expired (an
earlier rate-limit gate may instead reject it with a different error, without
the lookup ever running). -/
theorem challenge_single_use_spec (cfg : Config) (chain : Chain)
    (req : FaucetRequest) (st : Store) (now : Nat) (ip : String) :
    ((requestTokens cfg chain req st now ip).1.isSuccess = true →
      (requestTokens cfg chain req st now ip).2.1.challenges req.challengeID = none) ∧
    (getStoredChallenge st req.challengeID now = none →
      (requestTokens cfg chain req st now ip).1.isSuccess = false ∧
      (Event.lookupChallenge req.challengeID ∈
          (requestTokens cfg chain req st now ip).2.2 →
        (requestTokens cfg chain req st now ip).1 =
          .err 400 "Invalid or expired challenge")) := by
  cases ha : validateStarknetAddress req.address with
  | false =>
    rw [requestTokens_addr_invalid cfg chain req st now ip ha]
    simp [Resp.isSuccess]
  | true =>
  cases hv : validateToken (goToUpper req.token) with
  | false =>
    rw [requestTokens_token_invalid cfg chain req st now ip ha hv]
    simp [Resp.isSuccess]
  | true =>
  have hnB : goToUpper req.token ≠ "BOTH" := by
    intro h
    rw [h] at hv
    exact absurd hv (by decide)
  rcases hchk : checkIPDailyLimit cfg.maxRequestsPerDayIP st ip now with ⟨cr, cnt, cd, st1⟩
  have hfl := checkIPDailyLimit_fields cfg.maxRequestsPerDayIP st ip now
  rw [hchk] at hfl
  simp only at hfl
  obtain ⟨-, -, hc1, -, -⟩ := hfl
  have hlk1 : getStoredChallenge st1 req.challengeID now =
      getStoredChallenge st req.challengeID now := by
    simp [getStoredChallenge, hc1]
  cases cr with
  | false =>
    cases cd with
    | some e =>
      rw [requestTokens_cooldown cfg chain req st now ip cnt (some e) st1 ha hv hchk rfl]
      simp [Resp.isSuccess]
    | none =>
      rw [requestTokens_daily_limit cfg chain req st now ip false cnt none st1 ha hv hchk
        (by simp) (by simp)]
      simp [Resp.isSuccess]
  | true =>
  by_cases hq : cfg.maxRequestsPerDayIP < cnt + 1
  · rw [requestTokens_daily_limit cfg chain req st now ip true cnt cd st1 ha hv hchk
      (by simp) (by simp [hnB, hq])]
    simp [Resp.isSuccess]
  · have hq2 : decide (cfg.maxRequestsPerDayIP <
        cnt + (if goToUpper req.token = "BOTH" then 2 else 1)) = false := by
      simp [hnB, hq]
    rcases hth : checkTokenHourlyThrottle st1 ip (goToUpper req.token) now with ⟨ct, next⟩
    cases ct with
    | false =>
      rw [requestTokens_throttled cfg chain req st now ip cnt cd st1 next ha hv hnB hchk
        hq2 hth]
      simp [Resp.isSuccess]
    | true =>
    cases hlk : getStoredChallenge st1 req.challengeID now with
    | none =>
      rw [requestTokens_no_challenge cfg chain req st now ip cnt cd st1 next ha hv hnB
        hchk hq2 hth hlk]
      simp [Resp.isSuccess]
    | some payload =>
    have hsome : getStoredChallenge st req.challengeID now = some payload := by
      rw [← hlk1]
      exact hlk
    cases hpw : verifyPoW cfg.powDifficulty payload req.nonce cfg.powDifficulty with
    | false =>
      rw [requestTokens_bad_pow cfg chain req st now ip cnt cd st1 next payload ha hv hnB
        hchk hq2 hth hlk hpw]
      simp [Resp.isSuccess, hsome]
    | true =>
    rw [requestTokens_dispatch cfg chain req st now ip cnt cd st1 next payload ha hv hnB
      hchk hq2 hth hlk hpw]
    rcases htp : tokenParams cfg (goToUpper req.token) with ⟨amt, mh, md⟩
    rcases htrk : trackGlobalDistribution (deleteChallenge st1 req.challengeID)
        (goToUpper req.token) amt mh md with ⟨canD, st3⟩
    have hfl3 := trackGlobalDistribution_fields (deleteChallenge st1 req.challengeID)
      (goToUpper req.token) amt mh md
    rw [htrk] at hfl3
    simp only at hfl3
    obtain ⟨-, -, hch3, -⟩ := hfl3
    have hch3' : st3.challenges req.challengeID = none := by
      rw [hch3]
      simp [deleteChallenge, setFn]
    cases canD with
    | false =>
      rw [singleTokenDispatch_track_fail cfg chain req.address (goToUpper req.token)
        (deleteChallenge st1 req.challengeID) now ip st3 (by rw [htp]; exact htrk)]
      simp [Resp.isSuccess, hsome]
    | true =>
    cases hbal : chain.getBalance (goToUpper req.token) with
    | error e =>
      rw [singleTokenDispatch_balance_err cfg chain req.address (goToUpper req.token)
        (deleteChallenge st1 req.challengeID) now ip st3 (by rw [htp]; exact htrk) hbal]
      simp [Resp.isSuccess, hsome]
    | ok bal =>
    cases hrb : reserveBlocked bal amt cfg.minBalanceProtectPct with
    | true =>
      rw [singleTokenDispatch_reserve_fail cfg chain req.address (goToUpper req.token)
        (deleteChallenge st1 req.challengeID) now ip st3 bal (by rw [htp]; exact htrk)
        hbal (by rw [htp]; exact hrb)]
      simp [Resp.isSuccess, hsome]
    | false =>
    cases htr : chain.transferTokens req.address (goToUpper req.token) with
    | error e =>
      rw [singleTokenDispatch_transfer_fail cfg chain req.address (goToUpper req.token)
        (deleteChallenge st1 req.challengeID) now ip st3 bal (by rw [htp]; exact htrk)
        hbal (by rw [htp]; exact hrb) htr]
      simp [Resp.isSuccess, hsome]
    | ok tx =>
      rw [singleTokenDispatch_transfer_ok cfg chain req.address (goToUpper req.token)
        (deleteChallenge st1 req.challengeID) now ip st3 bal tx (by rw [htp]; exact htrk)
        hbal (by rw [htp]; exact hrb) htr]
      constructor
      · intro _
        simp only [setTokenHourlyThrottle, incrementIPDailyLimit_challenges]
        exact hch3'
      · intro hnone
        rw [hnone] at hsome
        exact Option.noConfusion hsome

end Faucet

namespace Faucet

/-- A store with no stored challenges at all. -/
def storeNoCh : Store := { storeBase with challenges := fun _ => none }

/-- Counterexample for C9: after a successful STRK dispatch consuming `c1`, an
immediate resubmission of the same challenge id (same IP, same token) is
rejected by the token-throttle gate with 429 — not as "Invalid or expired
challenge" — and the challenge lookup never runs. -/
theorem challenge_replay_throttled_cex :
    (requestTokens cfgBase chainOk reqSTRK storeBase 10 "ip").1.isSuccess = true ∧
    (requestTokens cfgBase chainOk reqSTRK
       (requestTokens cfgBase chainOk reqSTRK storeBase 10 "ip").2.1 70 "ip").1 =
      .err 429 "STRK hourly throttle active" ∧
    (requestTokens cfgBase chainOk reqSTRK
       (requestTokens cfgBase chainOk reqSTRK storeBase 10 "ip").2.1 70 "ip").1 ≠
      .err 400 "Invalid or expired challenge" ∧
    Event.lookupChallenge "c1" ∉
      (requestTokens cfgBase chainOk reqSTRK
        (requestTokens cfgBase chainOk reqSTRK storeBase 10 "ip").2.1 70 "ip").2.2 :=
  ⟨by with_unfolding_all decide, by with_unfolding_all decide,
   by with_unfolding_all decide, by with_unfolding_all decide⟩

/-- Witness for C9 (amended): with no record stored for `c1`, a dispatch using
it cannot succeed, and since it reaches the lookup it is rejected as
invalid/expired. -/
theorem challenge_single_use_spec_witness :
    getStoredChallenge storeNoCh "c1" 10 = none ∧
    ((requestTokens cfgBase chainOk reqSTRK storeNoCh 10 "ip").1.isSuccess = false ∧
     (Event.lookupChallenge "c1" ∈
        (requestTokens cfgBase chainOk reqSTRK storeNoCh 10 "ip").2.2 →
      (requestTokens cfgBase chainOk reqSTRK storeNoCh 10 "ip").1 =
        .err 400 "Invalid or expired challenge")) :=
  ⟨rfl, (challenge_single_use_spec cfgBase chainOk reqSTRK storeNoCh 10 "ip").2 rfl⟩

end Faucet

namespace Faucet

/-- C10 (amended): challenge issuance fails with 429 iff the calling IP has
already issued at least the configured number of challenges in the window
(the code's `count >= max`, i.e. more than `max - 1` — not "more than max" as
the claim words it); otherwise the new challenge is stored with its TTL and
the per-IP issuance counter is incremented. -/
theorem challenge_issuance_spec (cfg : Config) (st : Store) (ip id pl : String)
    (now : Nat) :
    ((getChallengeHandler cfg st ip id pl now).1 =
        .err 429 "Too many challenge requests. Please try again later." ↔
      cfg.maxChallengesPerHour ≤ st.challengeCount ip) ∧
    (st.challengeCount ip < cfg.maxChallengesPerHour →
      (getChallengeHandler cfg st ip id pl now).1 =
        .challengeOk id pl cfg.powDifficulty ∧
      (getChallengeHandler cfg st ip id pl now).2.challenges id =
        some (pl, now + cfg.challengeTTL) ∧
      (getChallengeHandler cfg st ip id pl now).2.challengeCount ip =
        st.challengeCount ip + 1) := by
  by_cases h : cfg.maxChallengesPerHour ≤ st.challengeCount ip
  · have hc : checkChallengeRateLimit cfg.maxChallengesPerHour st ip = false := by
      simp [checkChallengeRateLimit, h]
    exact ⟨by simp [getChallengeHandler, hc, h], fun hlt => absurd h (by omega)⟩
  · have hc : checkChallengeRateLimit cfg.maxChallengesPerHour st ip = true := by
      simp [checkChallengeRateLimit, h]
    refine ⟨by simp [getChallengeHandler, hc, h], fun _ => ⟨?_, ?_, ?_⟩⟩
    · simp [getChallengeHandler, hc]
    · simp [getChallengeHandler, hc, storeChallenge, incrementChallengeRateLimit, setFn]
    · simp [getChallengeHandler, hc, storeChallenge, incrementChallengeRateLimit, setFn]

/-- Counterexample for C10: with the default max of 8 and exactly 8 challenges
already issued — not *more than* 8 — issuance is already rejected with 429:
the code's boundary is `count >= max`, not `count > max`. -/
theorem challenge_rate_boundary_cex :
    cfgBase.maxChallengesPerHour = 8 ∧
    storeCh8.challengeCount "ip" = 8 ∧
    ¬(8 < storeCh8.challengeCount "ip") ∧
    (getChallengeHandler cfgBase storeCh8 "ip" "id1" "pl" 0).1 =
      .err 429 "Too many challenge requests. Please try again later." :=
  ⟨rfl, rfl, by decide, by decide⟩

/-- Witness for C10 (amended): at 7 of 8 issued, a new challenge is issued,
stored with its TTL, and the counter goes to 8. -/
theorem challenge_issuance_spec_witness :
    storeCh7.challengeCount "ip" < cfgBase.maxChallengesPerHour ∧
    ((getChallengeHandler cfgBase storeCh7 "ip" "id1" "pl" 5).1 =
       .challengeOk "id1" "pl" cfgBase.powDifficulty ∧
     (getChallengeHandler cfgBase storeCh7 "ip" "id1" "pl" 5).2.challenges "id1" =
       some ("pl", 5 + cfgBase.challengeTTL) ∧
     (getChallengeHandler cfgBase storeCh7 "ip" "id1" "pl" 5).2.challengeCount "ip" =
       storeCh7.challengeCount "ip" + 1) :=
  ⟨by decide,
   (challenge_issuance_spec cfgBase storeCh7 "ip" "id1" "pl" 5).2 (by decide)⟩

end Faucet
